import Mathlib

/-!
# Verification of the WaterBodyNDVI core analysis

Shallow embedding of `src/analysis.py` (functions `ols_slope`,
`create_buffer_zones`, `run_analysis`).  Missing observations (NaN in the
Python code) are modelled as `none`; finite floating-point values are
modelled as exact rationals.  A raster time slice is a row-major list of
rows of optional values.
-/

/-- A 2-D raster slice: rows of columns of optional (missing = NaN) values. -/
abbrev Raster : Type := List (List (Option ℚ))

/-- `np.nanmean` over a 1-D series: the mean of the non-missing entries,
missing when every entry is missing (numpy returns NaN for an all-NaN
slice). -/
def nanmean (l : List (Option ℚ)) : Option ℚ :=
  let v := l.filterMap id
  if v.length = 0 then none else some (v.sum / (v.length : ℚ))

/-- `np.nansum` over a 1-D series: the sum of the non-missing entries
(numpy treats NaN as 0, so an all-NaN series sums to 0). -/
def nansum (l : List (Option ℚ)) : ℚ :=
  (l.filterMap id).sum

/-- `np.where(mask, t, np.nan)` for one pixel: the time index `i` where the
pixel's value at slice `i` is present, missing where it is missing.
`masked_t_aux i ys` tags `ys` with time indices starting at `i`. -/
def masked_t_aux : ℕ → List (Option ℚ) → List (Option ℚ)
  | _, [] => []
  | i, y :: ys => (y.map (fun _ => (i : ℚ))) :: masked_t_aux (i + 1) ys

/-- The masked time array for one pixel series. -/
def masked_t (ys : List (Option ℚ)) : List (Option ℚ) :=
  masked_t_aux 0 ys

/-- `t_d = t - t_mean` for one pixel: every entry is `i - t_mean`; the whole
column is missing only when `t_mean` itself is missing (all slices missing),
since the raw time index `t` is never missing. -/
def t_dev (ys : List (Option ℚ)) : List (Option ℚ) :=
  (List.range ys.length).map (fun i =>
    (nanmean (masked_t ys)).map (fun m => (i : ℚ) - m))

/-- `y_d = stack - y_mean` for one pixel: missing where the value is missing
or where the mean is missing. -/
def y_dev (ys : List (Option ℚ)) : List (Option ℚ) :=
  ys.map (fun y => y.bind (fun v => (nanmean ys).map (fun m => v - m)))

/-- `num = np.nansum(t_d * y_d, axis=0)` for one pixel. -/
def slope_num (ys : List (Option ℚ)) : ℚ :=
  nansum (List.zipWith
    (fun a b => a.bind (fun x => b.map (fun z => x * z)))
    (t_dev ys) (y_dev ys))

/-- `den = np.nansum(t_d ** 2, axis=0)` for one pixel.  Note that `t_d` is
non-missing at every slice (whenever at least one slice is valid), so this
sums the squared time deviations over ALL slices, not only the valid ones —
exactly as the numpy code does. -/
def slope_den (ys : List (Option ℚ)) : ℚ :=
  nansum ((t_dev ys).map (fun a => a.map (fun x => x * x)))

/-- `ols_slope` restricted to a single pixel's time series:
`np.where(den == 0, np.nan, num / den)`. -/
def ols_slope_pixel (ys : List (Option ℚ)) : Option ℚ :=
  if slope_den ys = 0 then none else some (slope_num ys / slope_den ys)

/-- The pixel series of a stack at position (r, c): the pixel's value in
each time slice, in slice order.  (In numpy the stack is one rectangular
3-D array; the `getD` defaults are never reached for rectangular input.) -/
def pixel_series (stack : List Raster) (r c : ℕ) : List (Option ℚ) :=
  stack.map (fun f => (f.getD r []).getD c none)

/-- `ols_slope(stack)` from `src/analysis.py`: the per-pixel OLS slope map
over a (time, rows, cols) stack.  The output has the spatial shape of the
first slice, as in numpy. -/
def ols_slope (stack : List Raster) : Raster :=
  match stack with
  | [] => []
  | f0 :: rest =>
    (List.range f0.length).map (fun r =>
      (List.range ((f0.getD r []).length)).map (fun c =>
        ols_slope_pixel (pixel_series (f0 :: rest) r c)))

/-- The valid (time index, value) pairs of one pixel series, indices
starting at `i`. -/
def valid_samples_aux : ℕ → List (Option ℚ) → List (ℚ × ℚ)
  | _, [] => []
  | i, none :: ys => valid_samples_aux (i + 1) ys
  | i, some v :: ys => ((i : ℚ), v) :: valid_samples_aux (i + 1) ys

/-- The valid (time index, value) pairs of one pixel series. -/
def valid_samples (ys : List (Option ℚ)) : List (ℚ × ℚ) :=
  valid_samples_aux 0 ys

/-- Reference OLS slope following the spec's words: means, numerator and
denominator are all computed ONLY over the slices where the pixel's value
is not missing; missing when fewer than one valid sample or when the
denominator is zero. -/
def spec_ols_slope_pixel (ys : List (Option ℚ)) : Option ℚ :=
  let v := valid_samples ys
  if v.length = 0 then none
  else
    let n : ℚ := (v.length : ℚ)
    let tbar := (v.map Prod.fst).sum / n
    let ybar := (v.map Prod.snd).sum / n
    let den := (v.map (fun p => (p.1 - tbar) * (p.1 - tbar))).sum
    if den = 0 then none
    else some ((v.map (fun p => (p.1 - tbar) * (p.2 - ybar))).sum / den)

/-- A geographic point (longitude, latitude), EPSG:4326. -/
structure GeoPoint : Type where
  lon : ℚ
  lat : ℚ

/-- The geometry-library operations `create_buffer_zones` delegates to
(geopandas/shapely), abstracted over the geometry and CRS representations:
`pointToUtm n p` is `GeoDataFrame([p], crs="EPSG:4326").to_crs(epsg=n)` on
a point; `buffer p d` is shapely's `p.buffer(d)`; `geomToCrs g n target`
is `GeoSeries([g], crs=epsg n).to_crs(target)`. -/
structure GeoApi (Geom Crs : Type) : Type where
  pointToUtm : ℕ → GeoPoint → GeoPoint
  buffer : GeoPoint → ℚ → Geom
  geomToCrs : Geom → ℕ → Crs → Geom

/-- `create_buffer_zones(lon, lat, buffer_distances_m, target_crs)` from
`src/analysis.py`: reproject the centre into the hard-coded metric CRS
EPSG:32644, buffer each requested distance there, and reproject each buffer
into the target CRS, appending in input order. -/
def create_buffer_zones {Geom Crs : Type} (api : GeoApi Geom Crs)
    (lon lat : ℚ) (buffer_distances_m : List ℚ) (target_crs : Crs) :
    List Geom :=
  let pt_utm := api.pointToUtm 32644 ⟨lon, lat⟩
  buffer_distances_m.map (fun dist =>
    api.geomToCrs (api.buffer pt_utm dist) 32644 target_crs)

/-- The `crs` and `transform` entries of the raster profile dict used by
`run_analysis`. -/
structure RasterProfile (Crs Affine : Type) : Type where
  crs : Crs
  transform : Affine

/-- One output row of `run_analysis`: the dict appended for each buffer
distance.  A `none` field is Python's `None` (explicitly present, marked
missing). -/
structure AnalysisRecord : Type where
  buffer_m : ℚ
  ndvi_dry_slope : Option ℚ
  ndvi_monsoon_slope : Option ℚ
deriving DecidableEq

/-- Numpy advanced indexing `stack[idxs, :, :]`: the selected slices in
index order, or `none` (an `IndexError`) when any index is out of bounds. -/
def fancySelect (stack : List Raster) : List ℕ → Option (List Raster)
  | [] => some []
  | i :: rest => (stack.get? i).bind (fun f =>
      (fancySelect stack rest).map (fun fs => f :: fs))

/-- The body of `run_analysis`'s per-buffer loop: try to compute the dry
and monsoon zonal means for one (distance, geometry) pair; on success record
both values, and on any exception record the distance with both fields
`None` — the `try`/`except` covers both calls. -/
def mkRecord {Geom Affine E : Type}
    (zonal_stats : Geom → Raster → Affine → Except E (Option ℚ))
    (transform : Affine) (slope_dry slope_monsoon : Raster)
    (dg : ℚ × Geom) : AnalysisRecord :=
  match (zonal_stats dg.2 slope_dry transform).bind (fun zs_dry =>
          (zonal_stats dg.2 slope_monsoon transform).map (fun zs_monsoon =>
            (zs_dry, zs_monsoon))) with
  | Except.ok v =>
    { buffer_m := dg.1, ndvi_dry_slope := v.1, ndvi_monsoon_slope := v.2 }
  | Except.error _ =>
    { buffer_m := dg.1, ndvi_dry_slope := none, ndvi_monsoon_slope := none }

/-- `run_analysis(ndvi_data, raster_profile, lon, lat, buffer_dists)` from
`src/analysis.py`.  `zonal_stats g r t` abstracts
`zonal_stats([g], r, affine=t, stats='mean', nodata=np.nan)[0]['mean']`,
which may return a value, return `None`, or raise.  The whole call is
`none` when the hard-coded seasonal fancy indexing `[[0,2,4,6]]` /
`[[1,3,5,7]]` raises an `IndexError` (fewer than 8 slices); that happens
before any record is appended. -/
def run_analysis {Geom Crs Affine E : Type}
    (zonal_stats : Geom → Raster → Affine → Except E (Option ℚ))
    (api : GeoApi Geom Crs)
    (ndvi_data : List Raster) (raster_profile : RasterProfile Crs Affine)
    (lon lat : ℚ) (buffer_dists : List ℚ) :
    Option (List AnalysisRecord) :=
  match fancySelect ndvi_data [0, 2, 4, 6], fancySelect ndvi_data [1, 3, 5, 7] with
  | some ndvi_dry, some ndvi_monsoon =>
    let slope_dry := ols_slope ndvi_dry
    let slope_monsoon := ols_slope ndvi_monsoon
    let buffers_geom :=
      create_buffer_zones api lon lat buffer_dists raster_profile.crs
    some ((buffer_dists.zip buffers_geom).map
      (mkRecord zonal_stats raster_profile.transform slope_dry slope_monsoon))
  | _, _ => none

/-- The dry-season sub-stack: the even-indexed slices 0, 2, 4, 6 in order. -/
def evenSlices (stack : List Raster) : List Raster :=
  [stack.getD 0 [], stack.getD 2 [], stack.getD 4 [], stack.getD 6 []]

/-- The monsoon-season sub-stack: the odd-indexed slices 1, 3, 5, 7 in
order. -/
def oddSlices (stack : List Raster) : List Raster :=
  [stack.getD 1 [], stack.getD 3 [], stack.getD 5 [], stack.getD 7 []]

/-! ## Concrete instances used to exercise the definitions -/

/-- A concrete geometry backend over `Geom = ℚ`, `Crs = Unit`: buffering a
point with distance `d` yields the number `lon + d`, reprojections are
identities.  Only its plumbing matters. -/
def testApi : GeoApi ℚ Unit where
  pointToUtm := fun _ p => p
  buffer := fun p d => p.lon + d
  geomToCrs := fun g _ _ => g

/-- A trivially valid raster profile for the test backend. -/
def testProfile : RasterProfile Unit Unit := ⟨(), ()⟩

/-- A zonal-statistics backend that always succeeds with mean 7. -/
def zsOk : ℚ → Raster → Unit → Except Unit (Option ℚ) :=
  fun _ _ _ => Except.ok (some 7)

/-- A zonal-statistics backend that raises exactly on the raster
`[[some (3/10)]]` (the monsoon trend raster of `stack8`) and otherwise
succeeds with mean 42. -/
def zsMonFail : ℚ → Raster → Unit → Except Unit (Option ℚ) :=
  fun _ r _ => if r = [[some (3 / 10)]] then Except.error () else Except.ok (some 42)

/-- A zonal-statistics backend that raises on every call. -/
def zsAllFail : ℚ → Raster → Unit → Except Unit (Option ℚ) :=
  fun _ _ _ => Except.error ()

/-- A 1×1-pixel 8-slice stack: dry slices (0,2,4,6) hold 0.1, 0.2, 0.3, 0.4
(dry trend slope 1/10) and monsoon slices (1,3,5,7) hold 0, 0, 0, 1
(monsoon trend slope 3/10). -/
def stack8 : List Raster :=
  [[[some (1 / 10)]], [[some 0]], [[some (2 / 10)]], [[some 0]],
   [[some (3 / 10)]], [[some 0]], [[some (4 / 10)]], [[some 1]]]

/-- A 7-slice stack (one slice short of the hard-coded split). -/
def stack7 : List Raster := List.replicate 7 [[some 1]]

/-- A 9-slice stack (one slice beyond the hard-coded split). -/
def stack9 : List Raster := List.replicate 9 [[some 1]]

/-! ## Helper lemmas -/

theorem getElem?_zip_eq {α β : Type} :
    ∀ (l : List α) (m : List β) (i : ℕ),
      (l.zip m)[i]? = l[i]?.bind (fun a => m[i]?.map (fun b => (a, b)))
  | [], _, _ => by simp
  | _ :: _, [], _ => by simp
  | _ :: _, _ :: _, 0 => by simp [List.zip_cons_cons]
  | _ :: l, _ :: m, i + 1 => by
    simpa [List.zip_cons_cons] using getElem?_zip_eq l m i

theorem run_analysis_eq {Geom Crs Affine E : Type}
    (zs : Geom → Raster → Affine → Except E (Option ℚ))
    (api : GeoApi Geom Crs) (stack : List Raster)
    (prof : RasterProfile Crs Affine) (lon lat : ℚ) (dists : List ℚ)
    (h8 : 8 ≤ stack.length) :
    run_analysis zs api stack prof lon lat dists =
      some ((dists.zip (create_buffer_zones api lon lat dists prof.crs)).map
        (mkRecord zs prof.transform
          (ols_slope (evenSlices stack)) (ols_slope (oddSlices stack)))) := by
  rcases stack with _ | ⟨a, _ | ⟨b, _ | ⟨c, _ | ⟨d, _ | ⟨e, _ | ⟨f, _ | ⟨g, _ | ⟨h, rest⟩⟩⟩⟩⟩⟩⟩⟩ <;>
    first
      | rfl
      | simp at h8

theorem fancySelect_even (stack : List Raster) (h8 : 8 ≤ stack.length) :
    fancySelect stack [0, 2, 4, 6] = some (evenSlices stack) := by
  rcases stack with _ | ⟨a, _ | ⟨b, _ | ⟨c, _ | ⟨d, _ | ⟨e, _ | ⟨f, _ | ⟨g, _ | ⟨h, rest⟩⟩⟩⟩⟩⟩⟩⟩ <;>
    first
      | rfl
      | simp at h8

theorem fancySelect_odd (stack : List Raster) (h8 : 8 ≤ stack.length) :
    fancySelect stack [1, 3, 5, 7] = some (oddSlices stack) := by
  rcases stack with _ | ⟨a, _ | ⟨b, _ | ⟨c, _ | ⟨d, _ | ⟨e, _ | ⟨f, _ | ⟨g, _ | ⟨h, rest⟩⟩⟩⟩⟩⟩⟩⟩ <;>
    first
      | rfl
      | simp at h8

theorem mkRecord_error {Geom Affine E : Type}
    (zs : Geom → Raster → Affine → Except E (Option ℚ))
    (t : Affine) (dry mon : Raster) (d : ℚ) (g : Geom) (e : E)
    (h : zs g dry t = Except.error e ∨ zs g mon t = Except.error e) :
    mkRecord zs t dry mon (d, g) =
      { buffer_m := d, ndvi_dry_slope := none, ndvi_monsoon_slope := none } := by
  rcases h with h | h
  · simp [mkRecord, h, Except.bind]
  · cases hd : zs g dry t with
    | error e' => simp [mkRecord, hd, Except.bind]
    | ok v => simp [mkRecord, hd, h, Except.bind, Except.map]

theorem ols_slope_pixel_len_le_one (ys : List (Option ℚ)) (h : ys.length ≤ 1) :
    ols_slope_pixel ys = none := by
  rcases ys with _ | ⟨a, _ | ⟨b, tl⟩⟩
  · simp [ols_slope_pixel, slope_den, t_dev, masked_t, masked_t_aux, nanmean, nansum]
  · rcases a with _ | v
    · simp [ols_slope_pixel, slope_den, t_dev, masked_t, masked_t_aux, nanmean,
        nansum, List.range_succ]
    · simp [ols_slope_pixel, slope_den, t_dev, masked_t, masked_t_aux, nanmean,
        nansum, List.range_succ]
  · simp at h

/-! ## Claim theorems -/

/-- C1 (failing-input evaluation): on the pixel series [0, 1, NaN] — two
valid samples at distinct time indices — the code's `ols_slope` returns
2/11, because its denominator sums the squared time deviations over all
three slices (including the missing one), while the closed-form OLS slope
over the valid slices only, as the spec states it, is 1. -/
theorem ols_slope_c1_denominator_bug :
    ols_slope [[[some 0]], [[some 1]], [[none]]] = [[some (2 / 11)]] ∧
    spec_ols_slope_pixel [some 0, some 1, none] = some 1 := by
  constructor
  · simp [ols_slope, pixel_series, ols_slope_pixel, slope_den, slope_num,
      t_dev, y_dev, masked_t, masked_t_aux, nanmean, nansum, List.range_succ]
    norm_num
  · simp [spec_ols_slope_pixel, valid_samples, valid_samples_aux]
    norm_num

/-- C2 (failing-input evaluation): in a 2-slice stack, a pixel with exactly
one valid sample gets slope 0 from the code, not the missing sentinel: the
unmasked denominator (1−0)² = 1 is nonzero, so the zero-denominator guard
does not fire. -/
theorem ols_slope_c2_single_valid_sample :
    ols_slope [[[some 1]], [[none]]] = [[some 0]] := by
  simp [ols_slope, pixel_series, ols_slope_pixel, slope_den, slope_num,
    t_dev, y_dev, masked_t, masked_t_aux, nanmean, nansum, List.range_succ]

/-- C3: whenever the slope denominator is exactly zero, `ols_slope` outputs
the missing-value sentinel at that pixel; the division branch is guarded by
`np.where(den == 0, np.nan, ...)`, so the function is total and never
divides by zero. -/
theorem ols_slope_c3_zero_den_guard (ys : List (Option ℚ))
    (h : slope_den ys = 0) : ols_slope_pixel ys = none := by
  simp [ols_slope_pixel, h]

theorem ols_slope_c3_zero_den_guard_witness :
    slope_den [none, none] = 0 ∧ ols_slope_pixel [none, none] = none :=
  ⟨by decide, ols_slope_c3_zero_den_guard [none, none] (by decide)⟩

/-- C5: `create_buffer_zones` returns exactly one polygon per input radius,
in input order; polygon i is built by reprojecting the centre into the one
fixed metric CRS EPSG:32644 (a constant, independent of the centre's
location), buffering by radius i in metres there, and reprojecting into the
target CRS. -/
theorem create_buffer_zones_c5_order_projection {Geom Crs : Type}
    (api : GeoApi Geom Crs) (lon lat : ℚ) (ds : List ℚ) (target : Crs) :
    (create_buffer_zones api lon lat ds target).length = ds.length ∧
    ∀ i : ℕ, (create_buffer_zones api lon lat ds target)[i]? =
      ds[i]?.map (fun dist =>
        api.geomToCrs (api.buffer (api.pointToUtm 32644 ⟨lon, lat⟩) dist)
          32644 target) := by
  refine ⟨by simp [create_buffer_zones], fun i => ?_⟩
  simp [create_buffer_zones, List.getElem?_map]

/-- C9: the Trend Estimator is deterministic — on equal input stacks it
returns equal (bit-identical) trend rasters; it is embedded as a pure
function of its input, with no hidden state, matching the numpy code whose
operations all allocate fresh arrays. -/
theorem ols_slope_c9_deterministic (s t : List Raster) (h : s = t) :
    ols_slope s = ols_slope t := by
  rw [h]

theorem ols_slope_c9_deterministic_witness :
    ols_slope stack8 = ols_slope stack8 :=
  ols_slope_c9_deterministic stack8 stack8 rfl

/-- C4 (counterexample): on a stack with a single time slice, `ols_slope`
does not signal any error — it silently returns an ordinary trend raster
(every pixel the missing sentinel).  There is no validation of the number
of time slices anywhere in the function. -/
theorem ols_slope_c4_short_stack_returns_result :
    ols_slope [[[some 1, some 2]]] = [[none, none]] := by
  have h1 : ols_slope_pixel [some 1] = none :=
    ols_slope_pixel_len_le_one _ (by simp)
  have h2 : ols_slope_pixel [some 2] = none :=
    ols_slope_pixel_len_le_one _ (by simp)
  simp [ols_slope, pixel_series, List.range_succ, h1, h2]

/-- C4 (amended): `ols_slope` performs no input validation: on a stack with
fewer than 2 time slices it silently returns a trend raster in which every
pixel is the missing sentinel (the per-pixel denominator is 0), rather than
signalling an error; mismatched spatial shapes cannot occur because a
BandStack is a single rectangular numpy array. -/
theorem ols_slope_c4_short_stack_all_missing (stack : List Raster)
    (h : stack.length ≤ 1) (r c : ℕ) :
    ((ols_slope stack)[r]?.getD [])[c]?.getD none = none := by
  rcases stack with _ | ⟨f0, _ | ⟨f1, rest⟩⟩
  · simp [ols_slope]
  · rcases Nat.lt_or_ge r f0.length with hr | hr
    · have h1 : (ols_slope [f0])[r]? =
          some ((List.range ((f0.getD r []).length)).map
            (fun c => ols_slope_pixel (pixel_series [f0] r c))) := by
        simp only [ols_slope]
        rw [List.getElem?_map, List.getElem?_range hr]
        rfl
      rw [h1, Option.getD_some]
      rcases Nat.lt_or_ge c ((f0.getD r []).length) with hc | hc
      · rw [List.getElem?_map, List.getElem?_range hc, Option.map_some',
          Option.getD_some]
        exact ols_slope_pixel_len_le_one _ (by simp [pixel_series])
      · rw [List.getElem?_map, List.getElem?_eq_none (by simpa using hc)]
        rfl
    · have hnone : (ols_slope [f0])[r]? = none :=
        List.getElem?_eq_none (by simp only [ols_slope]; simpa using hr)
      rw [hnone]
      rfl
  · simp at h

theorem ols_slope_c4_short_stack_all_missing_witness :
    ((ols_slope [[[some 1, some 2]]])[0]?.getD [])[1]?.getD none = none :=
  ols_slope_c4_short_stack_all_missing [[[some 1, some 2]]] (by simp) 0 1

/-- C6: for every requested list of buffer distances (and every
zonal-statistics backend, including failing ones), `run_analysis` produces
exactly one AnalysisRecord per distance, in input order; every record has
both seasonal fields present (possibly `none`), and record i is a function
of distance i and geometry i alone, so a failure on one buffer cannot
affect the records of the other buffers. -/
theorem run_analysis_c6_one_record_per_distance {Geom Crs Affine E : Type}
    (zs : Geom → Raster → Affine → Except E (Option ℚ))
    (api : GeoApi Geom Crs) (stack : List Raster)
    (prof : RasterProfile Crs Affine) (lon lat : ℚ) (dists : List ℚ)
    (h8 : 8 ≤ stack.length) :
    ∃ recs : List AnalysisRecord,
      run_analysis zs api stack prof lon lat dists = some recs ∧
      recs.length = dists.length ∧
      ∀ i : ℕ, recs[i]? = dists[i]?.bind (fun d =>
        (create_buffer_zones api lon lat dists prof.crs)[i]?.map (fun g =>
          mkRecord zs prof.transform (ols_slope (evenSlices stack))
            (ols_slope (oddSlices stack)) (d, g))) := by
  refine ⟨_, run_analysis_eq zs api stack prof lon lat dists h8, ?_, ?_⟩
  · simp [create_buffer_zones]
  · intro i
    cases hd : dists[i]? with
    | none =>
      have hz : (dists.zip (create_buffer_zones api lon lat dists prof.crs))[i]? = none := by
        rw [getElem?_zip_eq, hd]
        rfl
      simp [List.getElem?_map, hz, hd]
    | some d =>
      cases hg : (create_buffer_zones api lon lat dists prof.crs)[i]? with
      | none =>
        have hz : (dists.zip (create_buffer_zones api lon lat dists prof.crs))[i]? = none := by
          rw [getElem?_zip_eq, hd, hg]
          rfl
        simp [List.getElem?_map, hz, hd, hg]
      | some g =>
        have hz : (dists.zip (create_buffer_zones api lon lat dists prof.crs))[i]? = some (d, g) := by
          rw [getElem?_zip_eq, hd, hg]
          rfl
        simp [List.getElem?_map, hz, hd, hg]

theorem run_analysis_c6_one_record_per_distance_witness :
    ∃ recs : List AnalysisRecord,
      run_analysis zsOk testApi stack8 testProfile 0 0 [100, 500] = some recs ∧
      recs.length = [(100 : ℚ), 500].length ∧
      ∀ i : ℕ, recs[i]? = [(100 : ℚ), 500][i]?.bind (fun d =>
        (create_buffer_zones testApi 0 0 [100, 500] testProfile.crs)[i]?.map (fun g =>
          mkRecord zsOk testProfile.transform (ols_slope (evenSlices stack8))
            (ols_slope (oddSlices stack8)) (d, g))) :=
  run_analysis_c6_one_record_per_distance zsOk testApi stack8 testProfile 0 0
    [100, 500] (by simp [stack8])

/-- C7 (counterexample): the `try`/`except` in `run_analysis` wraps both
seasons' zonal calls, so failure is NOT caught per (buffer, season) pair:
with a backend that succeeds on the dry trend raster (returning mean 42)
and raises only on the monsoon trend raster, the single record comes back
with BOTH fields missing — the successfully computed dry value is
discarded. -/
theorem run_analysis_c7_monsoon_failure_discards_dry :
    run_analysis zsMonFail testApi stack8 testProfile 0 0 [100] =
      some [{ buffer_m := 100, ndvi_dry_slope := none, ndvi_monsoon_slope := none }] ∧
    zsMonFail 100 (ols_slope (evenSlices stack8)) () = Except.ok (some 42) := by
  have hdry : ols_slope (evenSlices stack8) = [[some (1 / 10)]] := by
    simp [evenSlices, stack8, ols_slope, pixel_series, ols_slope_pixel,
      slope_den, slope_num, t_dev, y_dev, masked_t, masked_t_aux, nanmean,
      nansum, List.range_succ]
    norm_num
  have hmon : ols_slope (oddSlices stack8) = [[some (3 / 10)]] := by
    simp [oddSlices, stack8, ols_slope, pixel_series, ols_slope_pixel,
      slope_den, slope_num, t_dev, y_dev, masked_t, masked_t_aux, nanmean,
      nansum, List.range_succ]
    norm_num
  have hz1 : zsMonFail 100 (ols_slope (evenSlices stack8)) () = Except.ok (some 42) := by
    rw [hdry]
    norm_num [zsMonFail]
  have hz2 : zsMonFail 100 (ols_slope (oddSlices stack8)) () = Except.error () := by
    rw [hmon]
    simp [zsMonFail]
  refine ⟨?_, hz1⟩
  rw [run_analysis_eq zsMonFail testApi stack8 testProfile 0 0 [100] (by simp [stack8])]
  have hgeom : create_buffer_zones testApi 0 0 [100] testProfile.crs = [100] := by
    simp [create_buffer_zones, testApi, testProfile]
  rw [hgeom]
  simp [mkRecord, hz1, hz2, Except.bind, Except.map, testProfile]

/-- C7 (amended): failures are isolated at the granularity of one buffer,
not one (buffer, season) pair: if either season's zonal computation for
buffer i raises, record i has BOTH fields marked missing (a dry value that
was computed successfully is discarded), and every other buffer's record is
exactly what its own (distance, geometry) pair determines — processing
continues with the remaining buffers. -/
theorem run_analysis_c7_per_buffer_isolation {Geom Crs Affine E : Type}
    (zs : Geom → Raster → Affine → Except E (Option ℚ))
    (api : GeoApi Geom Crs) (stack : List Raster)
    (prof : RasterProfile Crs Affine) (lon lat : ℚ) (dists : List ℚ)
    (h8 : 8 ≤ stack.length) (i : ℕ) (d : ℚ) (g : Geom) (e : E)
    (hd : dists[i]? = some d)
    (hg : (create_buffer_zones api lon lat dists prof.crs)[i]? = some g)
    (hfail : zs g (ols_slope (evenSlices stack)) prof.transform = Except.error e ∨
      zs g (ols_slope (oddSlices stack)) prof.transform = Except.error e) :
    ∃ recs : List AnalysisRecord,
      run_analysis zs api stack prof lon lat dists = some recs ∧
      recs[i]? = some (⟨d, none, none⟩ : AnalysisRecord) ∧
      ∀ j : ℕ, j ≠ i → recs[j]? = dists[j]?.bind (fun dj =>
        (create_buffer_zones api lon lat dists prof.crs)[j]?.map (fun gj =>
          mkRecord zs prof.transform (ols_slope (evenSlices stack))
            (ols_slope (oddSlices stack)) (dj, gj))) := by
  refine ⟨_, run_analysis_eq zs api stack prof lon lat dists h8, ?_, ?_⟩
  · have hz : (dists.zip (create_buffer_zones api lon lat dists prof.crs))[i]? = some (d, g) := by
      rw [getElem?_zip_eq, hd, hg]
      rfl
    rw [List.getElem?_map, hz, Option.map_some',
      mkRecord_error zs prof.transform (ols_slope (evenSlices stack))
        (ols_slope (oddSlices stack)) d g e hfail]
  · intro j _
    cases hdj : dists[j]? with
    | none =>
      have hz : (dists.zip (create_buffer_zones api lon lat dists prof.crs))[j]? = none := by
        rw [getElem?_zip_eq, hdj]
        rfl
      simp [List.getElem?_map, hz, hdj]
    | some dj =>
      cases hgj : (create_buffer_zones api lon lat dists prof.crs)[j]? with
      | none =>
        have hz : (dists.zip (create_buffer_zones api lon lat dists prof.crs))[j]? = none := by
          rw [getElem?_zip_eq, hdj, hgj]
          rfl
        simp [List.getElem?_map, hz, hdj, hgj]
      | some gj =>
        have hz : (dists.zip (create_buffer_zones api lon lat dists prof.crs))[j]? = some (dj, gj) := by
          rw [getElem?_zip_eq, hdj, hgj]
          rfl
        simp [List.getElem?_map, hz, hdj, hgj]

theorem run_analysis_c7_per_buffer_isolation_witness :
    ∃ recs : List AnalysisRecord,
      run_analysis zsAllFail testApi stack8 testProfile 0 0 [100] = some recs ∧
      recs[0]? = some (⟨100, none, none⟩ : AnalysisRecord) ∧
      ∀ j : ℕ, j ≠ 0 → recs[j]? = [(100 : ℚ)][j]?.bind (fun dj =>
        (create_buffer_zones testApi 0 0 [100] testProfile.crs)[j]?.map (fun gj =>
          mkRecord zsAllFail testProfile.transform (ols_slope (evenSlices stack8))
            (ols_slope (oddSlices stack8)) (dj, gj))) :=
  run_analysis_c7_per_buffer_isolation zsAllFail testApi stack8 testProfile 0 0
    [100] (by simp [stack8]) 0 100 100 () rfl
    (by simp [create_buffer_zones, testApi, testProfile]) (Or.inl rfl)

/-- C8: `run_analysis` splits the stack by index parity exactly as the
numpy fancy indexing `[[0, 2, 4, 6]]` / `[[1, 3, 5, 7]]` does — the dry
sub-stack is the even-indexed slices 0, 2, 4, 6 in order and the monsoon
sub-stack the odd-indexed slices 1, 3, 5, 7 in order — and the Trend
Estimator `ols_slope` is then run independently on each sub-stack to build
the per-buffer records. -/
theorem run_analysis_c8_parity_split {Geom Crs Affine E : Type}
    (zs : Geom → Raster → Affine → Except E (Option ℚ))
    (api : GeoApi Geom Crs) (stack : List Raster)
    (prof : RasterProfile Crs Affine) (lon lat : ℚ) (dists : List ℚ)
    (h8 : 8 ≤ stack.length) :
    fancySelect stack [0, 2, 4, 6] = some (evenSlices stack) ∧
    fancySelect stack [1, 3, 5, 7] = some (oddSlices stack) ∧
    run_analysis zs api stack prof lon lat dists =
      some ((dists.zip (create_buffer_zones api lon lat dists prof.crs)).map
        (mkRecord zs prof.transform
          (ols_slope (evenSlices stack)) (ols_slope (oddSlices stack)))) :=
  ⟨fancySelect_even stack h8, fancySelect_odd stack h8,
    run_analysis_eq zs api stack prof lon lat dists h8⟩

theorem run_analysis_c8_parity_split_witness :
    fancySelect stack8 [0, 2, 4, 6] = some (evenSlices stack8) ∧
    fancySelect stack8 [1, 3, 5, 7] = some (oddSlices stack8) ∧
    run_analysis zsOk testApi stack8 testProfile 0 0 [100] =
      some (([(100 : ℚ)].zip (create_buffer_zones testApi 0 0 [100] testProfile.crs)).map
        (mkRecord zsOk testProfile.transform
          (ols_slope (evenSlices stack8)) (ols_slope (oddSlices stack8)))) :=
  run_analysis_c8_parity_split zsOk testApi stack8 testProfile 0 0 [100]
    (by simp [stack8])

/-- C10: the seasonal split hard-codes slice indices 0..7: on any stack with
fewer than 8 time slices the fancy indexing raises an IndexError and the
whole call fails before any record is produced, and on any longer stack the
slices at index 8 and above are silently ignored — the result equals the
result on the first 8 slices alone. -/
theorem run_analysis_c10_hardcoded_eight {Geom Crs Affine E : Type}
    (zs : Geom → Raster → Affine → Except E (Option ℚ))
    (api : GeoApi Geom Crs) (stack : List Raster)
    (prof : RasterProfile Crs Affine) (lon lat : ℚ) (dists : List ℚ) :
    (stack.length < 8 → run_analysis zs api stack prof lon lat dists = none) ∧
    run_analysis zs api stack prof lon lat dists =
      run_analysis zs api (stack.take 8) prof lon lat dists := by
  constructor
  · intro hlt
    rcases stack with _ | ⟨a, _ | ⟨b, _ | ⟨c, _ | ⟨d, _ | ⟨e, _ | ⟨f, _ | ⟨g, _ | ⟨h, rest⟩⟩⟩⟩⟩⟩⟩⟩ <;>
      first
        | rfl
        | (simp at hlt; omega)
  · rcases stack with _ | ⟨a, _ | ⟨b, _ | ⟨c, _ | ⟨d, _ | ⟨e, _ | ⟨f, _ | ⟨g, _ | ⟨h, rest⟩⟩⟩⟩⟩⟩⟩⟩ <;>
      rfl

theorem run_analysis_c10_hardcoded_eight_witness :
    run_analysis zsOk testApi stack7 testProfile 0 0 [100] = none ∧
    run_analysis zsOk testApi stack9 testProfile 0 0 [100] =
      run_analysis zsOk testApi (stack9.take 8) testProfile 0 0 [100] :=
  ⟨(run_analysis_c10_hardcoded_eight zsOk testApi stack7 testProfile 0 0 [100]).1
      (by simp [stack7]),
    (run_analysis_c10_hardcoded_eight zsOk testApi stack9 testProfile 0 0 [100]).2⟩

